import Mathlib

/-!
# Secure_Note — verification of the pad/attachment lifecycle

Shallow embedding of the two checked-in server variants:

* `SecureNote.Server`    — `src/server.js` (current variant; SHA-256 hashing).
* `SecureNote.ServerOld` — `src/server-old.js` (legacy variant; bcrypt hashing,
  custom-URL creation, login endpoint).

Modelling conventions:

* Timestamps are milliseconds since the Unix epoch (`Nat`).  The source stores
  ISO-8601 strings produced from such instants and compares them after parsing
  back with `new Date`; the order on instants is unchanged by that round trip.
* The pad directory (`pads/*.json`) is an association list keyed by pad id;
  the uploads directory is an association list keyed by (pad id, file name).
* External primitives that are not repository code are parameters:
  `H : String → String` stands for Node's
  `crypto.createHash('sha256').update(·).digest('hex')`,
  `V : String → String → Bool` for `bcrypt.compare`, and
  `E : String → String → Bool` for whether `fs.unlink` throws on a given
  (pad id, file name) pair.
* Request-body fields that may be absent (`undefined`) are modelled as the
  empty string: JavaScript's `!password` test is falsy exactly for `undefined`
  and `""` among the values the routes receive.
* A `for` loop over a list is embedded as structural recursion in list order.
-/

namespace SecureNote

/-- Attachment metadata as stored in a pad record's `files` array
(`fileInfo` in the upload route of `src/server.js`). -/
structure FileInfo where
  id : String
  name : String
  size : Nat
  uploadedAt : Nat
  expiresAt : Nat
deriving Repr, DecidableEq

/-- A pad record as persisted in `pads/<padId>.json` by `src/server.js`
(`padData` in the create route). -/
structure PadData where
  content : String
  files : List FileInfo
  passwordHash : String
  createdAt : Nat
  lastModified : Nat
deriving Repr, DecidableEq

/-- The pads directory: one JSON record per pad id. -/
abbrev Pads := List (String × PadData)

/-- The uploads directory: binary payloads keyed by (pad id, file name),
where the file name is `fileId + ext`.  Bytes are `Nat`s below 256. -/
abbrev Payloads := List ((String × String) × List Nat)

/-- Read `JSON.parse(await fs.readFile(PADS_DIR/padId.json))`: the record stored
under `padId`, or `none` when the file does not exist (`readFile` throws). -/
def getPad (pads : Pads) (padId : String) : Option PadData :=
  match pads with
  | [] => none
  | e :: rest => if e.1 = padId then some e.2 else getPad rest padId

/-- Write `fs.writeFile(PADS_DIR/padId.json, ...)`: replace the record stored under
`padId`, creating it when absent. -/
def writePad (pads : Pads) (padId : String) (d : PadData) : Pads :=
  match pads with
  | [] => [(padId, d)]
  | e :: rest => if e.1 = padId then (padId, d) :: rest else e :: writePad rest padId d

/-- Listing `fs.readdir(UPLOADS_DIR/padId)`: the file names stored under `padId`.
A missing directory is modelled as an empty listing. -/
def readdir (payloads : Payloads) (padId : String) : List String :=
  payloads.filterMap (fun e => if e.1.1 = padId then some e.1.2 else none)

/-- Deletion `fs.unlink(UPLOADS_DIR/padId/fileName)`: drop one payload. -/
def unlink (payloads : Payloads) (padId fileName : String) : Payloads :=
  payloads.filter (fun e => !(e.1.1 == padId && e.1.2 == fileName))

/-- An uploaded file as multer hands it to the route
(`req.file`: original name, in-memory buffer, byte size). -/
structure UploadedFile where
  originalname : String
  buffer : List Nat
  size : Nat
deriving Repr, DecidableEq

/-- A JSON HTTP response: status code plus the body fields the routes use. -/
structure ApiResp where
  status : Nat := 200
  success : Option Bool := none
  error : Option String := none
  padId : Option String := none
deriving Repr, DecidableEq

/-- Node's `path.extname(name).`: the suffix of `name` from its last dot,
or `""` when there is no dot or the only dot starts the name. -/
def extname (name : String) : String :=
  let cs := name.data
  match cs.reverse.findIdx? (fun c => c == '.') with
  | none => ""
  | some rIdx =>
      let idx := cs.length - 1 - rIdx
      if idx = 0 then "" else String.mk (cs.drop idx)

/-- One lowercase hex digit, as in Node `Buffer.toString('hex')`. -/
def hexDigitChar (n : Nat) : Char :=
  if n < 10 then Char.ofNat (48 + n) else Char.ofNat (87 + n)

/-- Two lowercase hex digits of one byte. -/
def hexOfByte (b : Nat) : String :=
  String.mk [hexDigitChar (b / 16 % 16), hexDigitChar (b % 16)]

/-- Lowercase hex of a byte sequence (`Buffer.toString('hex')`). -/
def hexOfBytes (bs : List Nat) : String :=
  String.join (bs.map hexOfByte)

/-- Header `const header = buffer.slice(0, 8).toString('hex')` in `validateMime`. -/
def magicHeader (buffer : List Nat) : String :=
  hexOfBytes (buffer.take 8)

/-- JavaScript `s.startsWith(pre)`: code-unit prefix test. -/
def jsStartsWith (s pre : String) : Bool :=
  pre.data.isPrefixOf s.data

/-- JavaScript `s.toLowerCase()` restricted to the ASCII names the routes
compare against. -/
def jsToLower (s : String) : String :=
  String.mk (s.data.map Char.toLower)

/-- Function `validateMime(buffer, filename)` from `src/server.js` (identical in
`src/server-old.js`): magic-byte check of the payload's leading bytes against
the signature selected by the lowercased filename extension. -/
def validateMime (buffer : List Nat) (filename : String) : Bool :=
  let ext := jsToLower (extname filename)
  if buffer.length < 8 then false
  else
    let header := magicHeader buffer
    if ext = ".pdf" then jsStartsWith header "25504446"
    else if ext = ".jpg" ∨ ext = ".jpeg" then jsStartsWith header "ffd8ff"
    else if ext = ".png" then jsStartsWith header "89504e47"
    else if ext = ".docx" then
      jsStartsWith header "504b0304" || jsStartsWith header "504b0506"
    else false

/-- List `Object.values(ALLOWED_TYPES).flat()`: the extension allow-list used by
the multer `fileFilter`. -/
def allowedExts : List String := [".pdf", ".jpg", ".jpeg", ".png", ".docx"]

/-- The multer `fileFilter`: accept iff the lowercased extension is allowed. -/
def fileFilter (originalname : String) : Bool :=
  allowedExts.contains (jsToLower (extname originalname))

namespace Server

/-- Function `hashPassword` from `src/server.js`, with `H` the external
`crypto.createHash('sha256')` hex-digest primitive. -/
def hashPassword (H : String → String) (password : String) : String :=
  H password

/-- The comparison `data.passwordHash === hashPassword(password)` performed by
the verify route (`src/server.js` line 135). -/
def verifyMatches (H : String → String) (password digest : String) : Bool :=
  digest == hashPassword H password

/-- Route `POST /api/pad/:padId/create` from `src/server.js`.  Note the route has no
existence check: it writes the fresh record unconditionally. -/
def createRoute (H : String → String) (pads : Pads) (padId password : String)
    (now : Nat) : ApiResp × Pads :=
  if password = "" ∨ password.length < 4 then
    ({ status := 400, error := some "Password must be at least 4 characters" }, pads)
  else
    let padData : PadData :=
      { content := "", files := [], passwordHash := hashPassword H password,
        createdAt := now, lastModified := now }
    ({ status := 200, success := some true }, writePad pads padId padData)

/-- Route `POST /api/pad/:padId/verify` from `src/server.js`.  A missing pad file
makes `readFile` throw, landing in the catch branch (404 "Pad not found"). -/
def verifyRoute (H : String → String) (pads : Pads) (padId password : String) :
    ApiResp :=
  match getPad pads padId with
  | none => { status := 404, success := some false, error := some "Pad not found" }
  | some data => { status := 200, success := some (verifyMatches H password data.passwordHash) }

/-- Response of `POST /api/pad/:padId/get` from `src/server.js`. -/
inductive PadGetResp
  | ok (content : String) (files : List FileInfo)
  | err (status : Nat) (msg : String)
deriving Repr, DecidableEq

/-- Route `POST /api/pad/:padId/get` from `src/server.js`. -/
def getRoute (H : String → String) (pads : Pads) (padId password : String) :
    PadGetResp :=
  match getPad pads padId with
  | none => .err 404 "Pad not found"
  | some data =>
    if data.passwordHash ≠ hashPassword H password then .err 401 "Incorrect password"
    else .ok data.content data.files

/-- Route `POST /api/pad/:padId/save` from `src/server.js`.  A missing pad file makes
`readFile` throw, landing in the catch branch (500 "Failed to save"). -/
def saveRoute (H : String → String) (pads : Pads) (padId password content : String)
    (now : Nat) : ApiResp × Pads :=
  match getPad pads padId with
  | none => ({ status := 500, error := some "Failed to save" }, pads)
  | some data =>
    if data.passwordHash ≠ hashPassword H password then
      ({ status := 401, error := some "Incorrect password" }, pads)
    else
      let d := { data with content := content, lastModified := now }
      ({ status := 200, success := some true }, writePad pads padId d)

/-- Result of the upload pipeline of `src/server.js`. -/
inductive UploadResult
  | ok (f : FileInfo)
  | multerReject (msg : String)
  | err (status : Nat) (msg : String)
deriving Repr, DecidableEq

/-- Body of route `POST /api/upload/:padId` from `src/server.js`, after multer has
accepted the file.  `fileId` stands for the `generateId()` random hex string
and `now` for the request's clock instant (`uploadedAt` and `expiresAt` are
built in one object literal from back-to-back clock reads, modelled as one
instant). -/
def uploadRoute (H : String → String) (pads : Pads) (payloads : Payloads)
    (padId password : String) (file : UploadedFile) (fileId : String)
    (now : Nat) : UploadResult × Pads × Payloads :=
  match getPad pads padId with
  | none => (.err 500 "Upload failed", pads, payloads)
  | some padData =>
    if padData.passwordHash ≠ hashPassword H password then
      (.err 401 "Incorrect password", pads, payloads)
    else if validateMime file.buffer file.originalname = false then
      (.err 400 "Invalid or corrupted file", pads, payloads)
    else
      let ext := extname file.originalname
      let fileName := fileId ++ ext
      let payloads2 := ((padId, fileName), file.buffer) :: payloads
      let fileInfo : FileInfo :=
        { id := fileId, name := file.originalname, size := file.size,
          uploadedAt := now, expiresAt := now + 24 * 60 * 60 * 1000 }
      let padData2 := { padData with files := padData.files ++ [fileInfo] }
      (.ok fileInfo, writePad pads padId padData2, payloads2)

/-- The full upload pipeline: multer's `fileFilter` runs before the route body
and rejects disallowed extensions with `Error('Invalid file type')`. -/
def handleUpload (H : String → String) (pads : Pads) (payloads : Payloads)
    (padId password : String) (file : UploadedFile) (fileId : String)
    (now : Nat) : UploadResult × Pads × Payloads :=
  if fileFilter file.originalname then
    uploadRoute H pads payloads padId password file fileId now
  else
    (.multerReject "Invalid file type", pads, payloads)

/-- Response of `POST /files/:padId/:fileId` from `src/server.js`. -/
inductive DownloadResp
  | file (padId fileName dispName : String)
  | err (status : Nat) (msg : String)
deriving Repr, DecidableEq

/-- Route `POST /files/:padId/:fileId` from `src/server.js`.  The route never
mutates the stores, so it returns them unchanged alongside the response.
A missing pad file makes `readFile` throw (catch branch, 500). -/
def downloadRoute (H : String → String) (pads : Pads) (payloads : Payloads)
    (padId fileId password : String) (now : Nat) :
    DownloadResp × Pads × Payloads :=
  match getPad pads padId with
  | none => (.err 500 "Download failed", pads, payloads)
  | some padData =>
    if padData.passwordHash ≠ hashPassword H password then
      (.err 401 "Unauthorized", pads, payloads)
    else
      match padData.files.find? (fun f => f.id == fileId) with
      | none => (.err 404 "File not found", pads, payloads)
      | some fileInfo =>
        if fileInfo.expiresAt < now then (.err 410 "File expired", pads, payloads)
        else
          match (readdir payloads padId).find? (fun f => jsStartsWith f fileId) with
          | none => (.err 404 "File not found on disk", pads, payloads)
          | some fileName => (.file padId fileName fileInfo.name, pads, payloads)

/-- Log of one `cleanupExpired` run: deletion attempts (pad id, file id),
the `cleaned` counter, and the `console.error` messages. -/
structure SweepLog where
  attempts : List (String × String)
  cleaned : Nat
  errors : List String
deriving Repr, DecidableEq

/-- Body of the inner `try` of `cleanupExpired`: `readdir` the pad's upload
directory, find the payload whose name starts with the file id, `unlink` it.
`E padId fileName = true` means the `unlink` call throws; the catch branch
logs and continues. -/
def deleteFilePayload (E : String → String → Bool) (payloads : Payloads)
    (padId fid : String) : Payloads × Nat × List String :=
  match (readdir payloads padId).find? (fun f => jsStartsWith f fid) with
  | none => (payloads, 0, [])
  | some fileName =>
    if E padId fileName then
      (payloads, 0, ["Error deleting file " ++ fid])
    else
      (unlink payloads padId fileName, 1, [])

/-- The `for (const file of expired)` loop of `cleanupExpired`. -/
def deleteExpiredLoop (E : String → String → Bool) (padId : String)
    (expired : List FileInfo) (payloads : Payloads) :
    Payloads × Nat × List String :=
  match expired with
  | [] => (payloads, 0, [])
  | f :: rest =>
    let d := deleteFilePayload E payloads padId f.id
    let r := deleteExpiredLoop E padId rest d.1
    (r.1, d.2.1 + r.2.1, d.2.2 ++ r.2.2)

/-- One iteration of `cleanupExpired`'s per-pad loop (`src/server.js`
lines 288-314): filter out the expired entries, attempt each deletion, and
persist the list reduced to the live entries (`expiresAt >= now`). -/
def cleanupPad (E : String → String → Bool) (now : Nat) (padId : String)
    (padData : PadData) (payloads : Payloads) :
    PadData × Payloads × SweepLog :=
  let expired := padData.files.filter (fun f => decide (f.expiresAt < now))
  let d := deleteExpiredLoop E padId expired payloads
  let live := padData.files.filter (fun f => decide (now ≤ f.expiresAt))
  ({ padData with files := live }, d.1,
    { attempts := expired.map (fun f => (padId, f.id)), cleaned := d.2.1,
      errors := d.2.2 })

/-- Function `cleanupExpired` from `src/server.js`: sweep every pad in order. -/
def cleanupExpired (E : String → String → Bool) (now : Nat) (pads : Pads)
    (payloads : Payloads) : Pads × Payloads × SweepLog :=
  match pads with
  | [] => ([], payloads, { attempts := [], cleaned := 0, errors := [] })
  | e :: rest =>
    let p := cleanupPad E now e.1 e.2 payloads
    let r := cleanupExpired E now rest p.2.1
    ((e.1, p.1) :: r.1, r.2.1,
      { attempts := p.2.2.attempts ++ r.2.2.attempts,
        cleaned := p.2.2.cleaned + r.2.2.cleaned,
        errors := p.2.2.errors ++ r.2.2.errors })

end Server

namespace ServerOld

/-- A character allowed by the custom-URL regex `[a-zA-Z0-9_-]` of
`src/server-old.js`. -/
def isUrlChar (c : Char) : Bool :=
  c.isAlpha || c.isDigit || c == '_' || c == '-'

/-- Function `isValidCustomUrl` from `src/server-old.js`:
`/^[a-zA-Z0-9_-]{3,50}$/.test(urlName)`. -/
def isValidCustomUrl (urlName : String) : Bool :=
  decide (3 ≤ urlName.length) && decide (urlName.length ≤ 50)
    && urlName.data.all isUrlChar

/-- Function `padExists` from `src/server-old.js`: `fs.access` on the pad's JSON file. -/
def padExists (pads : Pads) (padId : String) : Bool :=
  (getPad pads padId).isSome

/-- Route `POST /api/create-pad` from `src/server-old.js`.  `HB` stands for the
external `bcrypt.hash` primitive (with its salt fixed for the request). -/
def createPadRoute (HB : String → String) (pads : Pads)
    (urlName password : String) (now : Nat) : ApiResp × Pads :=
  if urlName = "" ∨ isValidCustomUrl urlName = false then
    ({ status := 400,
       error := some "Invalid URL name. Use 3-50 characters (letters, numbers, hyphens, underscores only)" },
      pads)
  else if password = "" ∨ password.length < 4 then
    ({ status := 400, error := some "Password must be at least 4 characters" }, pads)
  else if padExists pads urlName then
    ({ status := 409, error := some "This URL name is already taken." }, pads)
  else
    let padData : PadData :=
      { content := "", files := [], passwordHash := HB password,
        createdAt := now, lastModified := now }
    ({ status := 200, success := some true, padId := some urlName },
      writePad pads urlName padData)

/-- Route `POST /api/login` from `src/server-old.js`.  `V` stands for the external
`bcrypt.compare` primitive (`verifyPassword`). -/
def loginRoute (V : String → String → Bool) (pads : Pads)
    (urlName password : String) : ApiResp :=
  if urlName = "" ∨ password = "" then
    { status := 400, error := some "URL name and password are required" }
  else if padExists pads urlName = false then
    { status := 401, error := some "Incorrect URL or password." }
  else
    match getPad pads urlName with
    | none => { status := 401, error := some "Incorrect URL or password." }
    | some data =>
      if V password data.passwordHash = false then
        { status := 401, error := some "Incorrect URL or password." }
      else
        { status := 200, success := some true, padId := some urlName }

end ServerOld

end SecureNote

open SecureNote SecureNote.Server SecureNote.ServerOld

/-! ## Concrete data for evaluating the routes

The hash parameters are instantiated with simple injective stand-ins for the
external crypto primitives; injectivity on the secrets used is checked by
`decide` at each use. -/

/-- Concrete stand-in for the SHA-256 hex-digest parameter `H`. -/
def sampleHash : String → String := fun s => String.append "sha256:" s

/-- Concrete stand-in for `bcrypt.hash` (salt fixed). -/
def sampleBcrypt : String → String := fun s => String.append "bcrypt:" s

/-- Concrete stand-in for `bcrypt.compare`, matching `sampleBcrypt`. -/
def sampleCompare : String → String → Bool := fun p h => h == sampleBcrypt p

/-- Deletion oracle under which no `unlink` call throws. -/
def noFailure : String → String → Bool := fun _ _ => false

/-- A pad with content `"hello"`, secret `"abcd"`, no attachments. -/
def padHello : PadData :=
  { content := "hello", files := [], passwordHash := sampleHash "abcd",
    createdAt := 0, lastModified := 0 }

/-- An attachment that expired at instant 50. -/
def fileExpired : FileInfo :=
  { id := "f1", name := "a.png", size := 3, uploadedAt := 0, expiresAt := 50 }

/-- An attachment that is live until instant 150. -/
def fileLive : FileInfo :=
  { id := "f2", name := "b.pdf", size := 4, uploadedAt := 90, expiresAt := 150 }

/-- A pad holding one expired and one live attachment, secret `"abcd"`. -/
def padWithFiles : PadData :=
  { content := "hi", files := [fileExpired, fileLive],
    passwordHash := sampleHash "abcd", createdAt := 0, lastModified := 0 }

/-- A pad whose credential digest comes from the bcrypt stand-in. -/
def padBcrypt : PadData :=
  { content := "hi", files := [], passwordHash := sampleBcrypt "abcd",
    createdAt := 0, lastModified := 0 }

/-- A well-formed 8-byte PNG upload. -/
def pngFile : UploadedFile :=
  { originalname := "pic.png", buffer := [137, 80, 78, 71, 13, 10, 26, 10],
    size := 8 }

/-- The metadata record the upload of `pngFile` at instant 1000 produces. -/
def fiPng : FileInfo :=
  { id := "aa11", name := "pic.png", size := 8, uploadedAt := 1000,
    expiresAt := 1000 + 24 * 60 * 60 * 1000 }

/-- Plain ASCII text (`"hello world!"`) renamed to a `.pdf` extension. -/
def textPdfFile : UploadedFile :=
  { originalname := "notes.pdf",
    buffer := [104, 101, 108, 108, 111, 32, 119, 111, 114, 108, 100, 33],
    size := 12 }

/-! ## Claims -/

/-- C1: the spec claims that a create request for an id that already denotes a
pad fails with `AlreadyExists` and leaves the existing pad's content and
credential hash unchanged.  Evaluating the embedded `src/server.js` create
route on such an input shows the opposite: the request succeeds (HTTP 200,
`success: true`) and the stored record is replaced — the content becomes `""`
and the credential hash becomes the hash of the new password.  (The legacy
`src/server-old.js` create route and `SETUP.md`'s documented `409 Conflict`
both prescribe the claimed behaviour; the current server dropped the check.) -/
theorem C1_create_overwrites_existing_pad :
    (createRoute sampleHash [("demo", padHello)] "demo" "wxyz" 5).1
      = { status := 200, success := some true }
    ∧ getPad (createRoute sampleHash [("demo", padHello)] "demo" "wxyz" 5).2 "demo"
      = some { content := "", files := [], passwordHash := sampleHash "wxyz",
               createdAt := 5, lastModified := 5 }
    ∧ padHello.content = "hello"
    ∧ sampleHash "wxyz" ≠ sampleHash "abcd" := by decide

/-- C2 (counterexample): the claim says a download of an expired attachment
with a correct secret synchronously removes the attachment's metadata and
payload, so it no longer appears in the pad's file list.  On the embedded
`src/server.js` download route the request does fail with the distinct 410
"File expired" response, but the pad store and payload store are returned
unchanged, and a subsequent get request still lists the expired attachment. -/
theorem C2_expired_access_leaves_attachment_listed :
    downloadRoute sampleHash [("demo", padWithFiles)]
        [(("demo", "f1.png"), [137])] "demo" "f1" "abcd" 100
      = (.err 410 "File expired", [("demo", padWithFiles)],
          [(("demo", "f1.png"), [137])])
    ∧ getRoute sampleHash [("demo", padWithFiles)] "demo" "abcd"
      = .ok "hi" [fileExpired, fileLive] := by decide

/-- C2 (amended): a download of an expired attachment with a correct secret
fails with the distinct 410 "File expired" error (not the 404 used for
unknown attachments), and the failed read leaves both the pad store and the
payload store unchanged; purging happens only in the periodic sweep. -/
theorem C2_expired_access_410_and_no_purge
    (H : String → String) (pads : Pads) (payloads : Payloads)
    (padId fileId password : String) (now : Nat) (pd : PadData) (fi : FileInfo)
    (hpad : getPad pads padId = some pd)
    (hpw : pd.passwordHash = hashPassword H password)
    (hfind : pd.files.find? (fun f => f.id == fileId) = some fi)
    (hexp : fi.expiresAt < now) :
    downloadRoute H pads payloads padId fileId password now
      = (.err 410 "File expired", pads, payloads) := by
  simp [downloadRoute, hpad, hpw, hfind, hexp]

/-- C2 witness: the amended theorem applied at a concrete expired access. -/
theorem C2_expired_access_410_witness :
    getPad [("demo", padWithFiles)] "demo" = some padWithFiles
    ∧ fileExpired.expiresAt < 100
    ∧ downloadRoute sampleHash [("demo", padWithFiles)] [] "demo" "f1" "abcd" 100
      = (.err 410 "File expired", [("demo", padWithFiles)], []) :=
  ⟨by decide, by decide,
    C2_expired_access_410_and_no_purge sampleHash [("demo", padWithFiles)] []
      "demo" "f1" "abcd" 100 padWithFiles fileExpired
      (by decide) (by decide) (by decide) (by decide)⟩

/-- C3: every successful upload produces metadata with
`expiresAt = uploadedAt + 24h` (24 * 60 * 60 * 1000 milliseconds), the fixed
lifetime constant of `src/server.js`'s upload route. -/
theorem C3_expiry_equals_upload_plus_24h
    (H : String → String) (pads : Pads) (payloads : Payloads)
    (padId password : String) (file : UploadedFile) (fileId : String)
    (now : Nat) (fi : FileInfo) (pads2 : Pads) (payloads2 : Payloads)
    (h : handleUpload H pads payloads padId password file fileId now
          = (.ok fi, pads2, payloads2)) :
    fi.expiresAt = fi.uploadedAt + 24 * 60 * 60 * 1000 := by
  unfold handleUpload uploadRoute at h
  split at h
  · split at h
    · simp at h
    · split at h
      · simp at h
      · split at h
        · simp at h
        · simp only [Prod.mk.injEq, UploadResult.ok.injEq] at h
          obtain ⟨hfi, -⟩ := h
          subst hfi
          rfl
  · simp at h

/-- C3 witness: a concrete successful PNG upload. -/
theorem C3_expiry_witness :
    handleUpload sampleHash [("demo", padHello)] [] "demo" "abcd" pngFile "aa11" 1000
      = (.ok fiPng, [("demo", { padHello with files := [fiPng] })],
          [(("demo", "aa11.png"), pngFile.buffer)])
    ∧ fiPng.expiresAt = fiPng.uploadedAt + 24 * 60 * 60 * 1000 :=
  ⟨by decide,
    C3_expiry_equals_upload_plus_24h sampleHash [("demo", padHello)] []
      "demo" "abcd" pngFile "aa11" 1000 fiPng
      [("demo", { padHello with files := [fiPng] })]
      [(("demo", "aa11.png"), pngFile.buffer)] (by decide)⟩

/-- C4 (counterexample): the claim says every login-style entry point returns
the same error response for a non-existent pad as for a wrong secret.  The
embedded `src/server.js` verify route distinguishes them: a missing pad gives
404 with `error: "Pad not found"`, a wrong secret gives 200 with
`success: false` and no error field. -/
theorem C4_verify_distinguishes_missing_pad :
    verifyRoute sampleHash [] "ghost" "abcd"
      = { status := 404, success := some false, error := some "Pad not found" }
    ∧ verifyRoute sampleHash [("demo", padHello)] "demo" "zzzz"
      = { status := 200, success := some false }
    ∧ verifyRoute sampleHash [] "ghost" "abcd"
      ≠ verifyRoute sampleHash [("demo", padHello)] "demo" "zzzz" := by decide

/-- C4 (amended): for the legacy login entry point (`/api/login` in
`src/server-old.js`) an authorization failure for a non-existent pad id is
indistinguishable from one for an existing pad with a wrong secret: both
produce the identical 401 response with error "Incorrect URL or password.".
The current `src/server.js` verify route does distinguish the two cases. -/
theorem C4_login_failures_indistinguishable
    (V : String → String → Bool) (pads1 pads2 : Pads)
    (u1 p1 u2 p2 : String) (pd : PadData)
    (hu1 : u1 ≠ "") (hp1 : p1 ≠ "") (hu2 : u2 ≠ "") (hp2 : p2 ≠ "")
    (hmiss : getPad pads1 u1 = none)
    (hhit : getPad pads2 u2 = some pd)
    (hwrong : V p2 pd.passwordHash = false) :
    loginRoute V pads1 u1 p1 = loginRoute V pads2 u2 p2
    ∧ loginRoute V pads1 u1 p1
      = { status := 401, error := some "Incorrect URL or password." } := by
  have e1 : loginRoute V pads1 u1 p1
      = { status := 401, error := some "Incorrect URL or password." } := by
    simp [loginRoute, padExists, hmiss, hu1, hp1]
  have e2 : loginRoute V pads2 u2 p2
      = { status := 401, error := some "Incorrect URL or password." } := by
    simp [loginRoute, padExists, hhit, hwrong, hu2, hp2]
  exact ⟨e1.trans e2.symm, e1⟩

/-- C4 witness: the amended theorem applied at a concrete missing pad and a
concrete wrong-secret login. -/
theorem C4_login_indistinguishable_witness :
    loginRoute sampleCompare [] "ghost" "abcd"
      = loginRoute sampleCompare [("demo", padBcrypt)] "demo" "zzzz" :=
  (C4_login_failures_indistinguishable sampleCompare [] [("demo", padBcrypt)]
    "ghost" "abcd" "demo" "zzzz" padBcrypt (by decide) (by decide) (by decide)
    (by decide) (by decide) (by decide) (by decide)).1

/-- C5: a save request whose secret does not hash to the stored credential
digest fails with 401 "Incorrect password" and returns the pad store
unchanged — content and last-modified timestamp keep their prior values. -/
theorem C5_failed_save_preserves_pad
    (H : String → String) (pads : Pads) (padId password content : String)
    (now : Nat) (pd : PadData)
    (hpad : getPad pads padId = some pd)
    (hwrong : pd.passwordHash ≠ hashPassword H password) :
    saveRoute H pads padId password content now
      = ({ status := 401, error := some "Incorrect password" }, pads) := by
  simp [saveRoute, hpad, hwrong]

/-- C5 witness: a concrete failed save with a wrong secret. -/
theorem C5_failed_save_witness :
    getPad [("demo", padHello)] "demo" = some padHello
    ∧ saveRoute sampleHash [("demo", padHello)] "demo" "zzzz" "new text" 7
      = ({ status := 401, error := some "Incorrect password" },
          [("demo", padHello)]) :=
  ⟨by decide,
    C5_failed_save_preserves_pad sampleHash [("demo", padHello)] "demo" "zzzz"
      "new text" 7 padHello (by decide) (by decide)⟩

/-- Helper: when the payload's first eight bytes match none of the allowed
magic-number signatures, `validateMime` returns `false`, whatever the
extension. -/
theorem validateMime_false_of_no_signature (buffer : List Nat) (filename : String)
    (n1 : jsStartsWith (magicHeader buffer) "25504446" = false)
    (n2 : jsStartsWith (magicHeader buffer) "ffd8ff" = false)
    (n3 : jsStartsWith (magicHeader buffer) "89504e47" = false)
    (n4 : jsStartsWith (magicHeader buffer) "504b0304" = false)
    (n5 : jsStartsWith (magicHeader buffer) "504b0506" = false) :
    validateMime buffer filename = false := by
  simp only [validateMime]
  split
  · rfl
  · split
    · exact n1
    · split
      · exact n2
      · split
        · exact n3
        · split
          · rw [n4, n5]
            rfl
          · rfl

/-- C6: an upload whose payload's leading bytes match no allowed format
signature (PDF, JPEG, PNG, DOCX/ZIP) is rejected — either by multer's
extension filter or by the route's magic-byte check (400 "Invalid or
corrupted file") — regardless of the claimed extension, and neither the pad
store nor the payload store changes, even when the pad exists and the secret
is correct. -/
theorem C6_unmatched_magic_upload_rejected
    (H : String → String) (pads : Pads) (payloads : Payloads)
    (padId password : String) (file : UploadedFile) (fileId : String)
    (now : Nat) (pd : PadData)
    (hpad : getPad pads padId = some pd)
    (hpw : pd.passwordHash = hashPassword H password)
    (n1 : jsStartsWith (magicHeader file.buffer) "25504446" = false)
    (n2 : jsStartsWith (magicHeader file.buffer) "ffd8ff" = false)
    (n3 : jsStartsWith (magicHeader file.buffer) "89504e47" = false)
    (n4 : jsStartsWith (magicHeader file.buffer) "504b0304" = false)
    (n5 : jsStartsWith (magicHeader file.buffer) "504b0506" = false) :
    ((handleUpload H pads payloads padId password file fileId now).1
        = .multerReject "Invalid file type"
      ∨ (handleUpload H pads payloads padId password file fileId now).1
        = .err 400 "Invalid or corrupted file")
    ∧ (handleUpload H pads payloads padId password file fileId now).2.1 = pads
    ∧ (handleUpload H pads payloads padId password file fileId now).2.2
        = payloads := by
  have hvm := validateMime_false_of_no_signature file.buffer file.originalname
    n1 n2 n3 n4 n5
  by_cases hf : fileFilter file.originalname
  · refine ⟨Or.inr ?_, ?_, ?_⟩ <;>
      simp [handleUpload, uploadRoute, hf, hpad, hpw, hvm]
  · refine ⟨Or.inl ?_, ?_, ?_⟩ <;>
      simp [handleUpload, hf]

/-- C6 witness: plain text renamed to `.pdf` is rejected with nothing
stored. -/
theorem C6_text_as_pdf_rejected_witness :
    jsStartsWith (magicHeader textPdfFile.buffer) "25504446" = false
    ∧ (((handleUpload sampleHash [("demo", padHello)] [] "demo" "abcd"
            textPdfFile "aa11" 1000).1 = .multerReject "Invalid file type"
        ∨ (handleUpload sampleHash [("demo", padHello)] [] "demo" "abcd"
            textPdfFile "aa11" 1000).1 = .err 400 "Invalid or corrupted file")
      ∧ (handleUpload sampleHash [("demo", padHello)] [] "demo" "abcd"
          textPdfFile "aa11" 1000).2.1 = [("demo", padHello)]
      ∧ (handleUpload sampleHash [("demo", padHello)] [] "demo" "abcd"
          textPdfFile "aa11" 1000).2.2 = []) :=
  ⟨by decide,
    C6_unmatched_magic_upload_rejected sampleHash [("demo", padHello)] []
      "demo" "abcd" textPdfFile "aa11" 1000 padHello (by decide) (by decide)
      (by decide) (by decide) (by decide) (by decide) (by decide)⟩

/-- C7: one sweep iteration persists exactly the live subset of the pad's
attachment list: every entry with expiry strictly before the sweep time has a
deletion attempt and is dropped from the list, every entry with expiry at or
after the sweep time is kept unchanged, and the persisted list contains no
expired entry. -/
theorem C7_sweep_persists_exactly_live
    (E : String → String → Bool) (now : Nat) (padId : String)
    (pd : PadData) (payloads : Payloads) :
    (cleanupPad E now padId pd payloads).1.files
      = pd.files.filter (fun f => decide (now ≤ f.expiresAt))
    ∧ (∀ f ∈ pd.files, f.expiresAt < now →
        (padId, f.id) ∈ (cleanupPad E now padId pd payloads).2.2.attempts
        ∧ f ∉ (cleanupPad E now padId pd payloads).1.files)
    ∧ (∀ f ∈ pd.files, now ≤ f.expiresAt →
        f ∈ (cleanupPad E now padId pd payloads).1.files)
    ∧ (∀ f ∈ (cleanupPad E now padId pd payloads).1.files,
        now ≤ f.expiresAt) := by
  have hfiles : (cleanupPad E now padId pd payloads).1.files
      = pd.files.filter (fun f => decide (now ≤ f.expiresAt)) := rfl
  have hatt : (cleanupPad E now padId pd payloads).2.2.attempts
      = (pd.files.filter (fun f => decide (f.expiresAt < now))).map
          (fun f => (padId, f.id)) := rfl
  refine ⟨hfiles, ?_, ?_, ?_⟩
  · intro f hf hexp
    refine ⟨?_, ?_⟩
    · rw [hatt]
      exact List.mem_map_of_mem _ (List.mem_filter.mpr ⟨hf, by simpa using hexp⟩)
    · rw [hfiles]
      intro hmem
      have hlive := (List.mem_filter.mp hmem).2
      simp only [decide_eq_true_eq] at hlive
      omega
  · intro f hf hlive
    rw [hfiles]
    exact List.mem_filter.mpr ⟨hf, by simpa using hlive⟩
  · intro f hmem
    rw [hfiles] at hmem
    have := (List.mem_filter.mp hmem).2
    simpa using this

/-- C7 witness: a concrete sweep of one expired and one live attachment. -/
theorem C7_sweep_witness :
    fileExpired ∈ padWithFiles.files ∧ fileExpired.expiresAt < 100
    ∧ (("demo", fileExpired.id)
          ∈ (cleanupPad noFailure 100 "demo" padWithFiles
              [(("demo", "f1.png"), [137])]).2.2.attempts
        ∧ fileExpired ∉ (cleanupPad noFailure 100 "demo" padWithFiles
              [(("demo", "f1.png"), [137])]).1.files) :=
  ⟨by decide, by decide,
    (C7_sweep_persists_exactly_live noFailure 100 "demo" padWithFiles
        [(("demo", "f1.png"), [137])]).2.1 fileExpired (by decide) (by decide)⟩

/-- C8: whatever deletion failures the `unlink` oracle `E` injects, the sweep
still processes every pad and every expired entry: the persisted pad list is
always the per-pad live filter, and the deletion-attempt log always covers
every expired entry of every pad.  Failures are logged values, never
exceptions — `cleanupExpired` is total in `E`. -/
theorem C8_sweep_unaffected_by_delete_failures
    (E : String → String → Bool) (now : Nat) (pads : Pads)
    (payloads : Payloads) :
    (cleanupExpired E now pads payloads).1
      = pads.map (fun e => (e.1,
          { e.2 with
            files := e.2.files.filter (fun f => decide (now ≤ f.expiresAt)) }))
    ∧ (cleanupExpired E now pads payloads).2.2.attempts
      = pads.flatMap (fun e =>
          (e.2.files.filter (fun f => decide (f.expiresAt < now))).map
            (fun f => (e.1, f.id))) := by
  induction pads generalizing payloads with
  | nil => exact ⟨rfl, rfl⟩
  | cons e rest ih =>
    obtain ⟨ih1, ih2⟩ := ih (cleanupPad E now e.1 e.2 payloads).2.1
    constructor
    · show (e.1, (cleanupPad E now e.1 e.2 payloads).1)
          :: (cleanupExpired E now rest
                (cleanupPad E now e.1 e.2 payloads).2.1).1 = _
      rw [ih1]
      rfl
    · show (cleanupPad E now e.1 e.2 payloads).2.2.attempts
          ++ (cleanupExpired E now rest
                (cleanupPad E now e.1 e.2 payloads).2.1).2.2.attempts = _
      rw [ih2]
      rfl

/-- C9: verifying a secret against its own digest succeeds, and verifying a
secret against the digest of a different secret fails provided the two
digests differ (the claim's no-collision assumption); this is the comparison
`passwordHash === hashPassword(password)` of `src/server.js`. -/
theorem C9_verify_hash_roundtrip (H : String → String) :
    (∀ s, verifyMatches H s (hashPassword H s) = true)
    ∧ ∀ s1 s2 : String, s1 ≠ s2 →
        hashPassword H s1 ≠ hashPassword H s2 →
        verifyMatches H s1 (hashPassword H s2) = false := by
  constructor
  · intro s
    simp [verifyMatches]
  · intro s1 s2 _ hcoll
    simp only [verifyMatches, hashPassword, beq_eq_false_iff_ne, ne_eq]
    exact fun h => hcoll h.symm

/-- C9 witness: the round trip evaluated at two distinct concrete secrets. -/
theorem C9_verify_hash_witness :
    ("abcd" : String) ≠ "zzzz"
    ∧ hashPassword sampleHash "abcd" ≠ hashPassword sampleHash "zzzz"
    ∧ verifyMatches sampleHash "abcd" (hashPassword sampleHash "abcd") = true
    ∧ verifyMatches sampleHash "abcd" (hashPassword sampleHash "zzzz") = false :=
  ⟨by decide, by decide, (C9_verify_hash_roundtrip sampleHash).1 "abcd",
    (C9_verify_hash_roundtrip sampleHash).2 "abcd" "zzzz" (by decide) (by decide)⟩

/-- C10: a create request whose password is absent (modelled as `""`) or
shorter than 4 characters fails with the 400 validation error and writes no
pad record, in both server variants. -/
theorem C10_short_password_create_rejected
    (H HB : String → String) (pads padsOld : Pads)
    (padId urlName password : String) (now nowOld : Nat)
    (hshort : password = "" ∨ password.length < 4) :
    createRoute H pads padId password now
      = ({ status := 400,
           error := some "Password must be at least 4 characters" }, pads)
    ∧ (createPadRoute HB padsOld urlName password nowOld).1.status = 400
    ∧ (createPadRoute HB padsOld urlName password nowOld).2 = padsOld := by
  refine ⟨?_, ?_⟩
  · unfold createRoute
    rw [if_pos hshort]
  · unfold createPadRoute
    split
    all_goals exact ⟨rfl, rfl⟩

/-- C10 witness: a two-character password is rejected by both variants. -/
theorem C10_short_password_witness :
    (("ab" : String) = "" ∨ ("ab" : String).length < 4)
    ∧ createRoute sampleHash [] "demo" "ab" 0
      = ({ status := 400,
           error := some "Password must be at least 4 characters" }, [])
    ∧ (createPadRoute sampleBcrypt [] "demo" "ab" 0).1.status = 400
    ∧ (createPadRoute sampleBcrypt [] "demo" "ab" 0).2 = ([] : Pads) :=
  ⟨Or.inr (by decide),
    C10_short_password_create_rejected sampleHash sampleBcrypt [] []
      "demo" "demo" "ab" 0 0 (Or.inr (by decide))⟩

-- sanity examples while developing (kept: they document the embedding)
example : SecureNote.extname "notes.pdf" = ".pdf" := by decide
example : SecureNote.extname "archive" = "" := by decide
example : SecureNote.hexOfBytes [0x89, 0x50, 0x4e, 0x47] = "89504e47" := by decide
example :
    SecureNote.validateMime [0x89, 0x50, 0x4e, 0x47, 0x0d, 0x0a, 0x1a, 0x0a] "pic.png"
      = true := by decide
example :
    SecureNote.validateMime
      [0x68, 0x65, 0x6c, 0x6c, 0x6f, 0x20, 0x77, 0x6f, 0x72, 0x6c, 0x64]
      "notes.pdf" = false := by decide
